import Mathlib

/-!
Verification of the gumball-machine browser front ends of this repository.

Two near-duplicate front ends are embedded here:
  * the dapp-toolkit variant (full-stack/dapp-toolkit-gumball-machine/client/main.js),
    whose handlers build transaction manifests as template strings; and
  * the wallet-sdk variant (full-stack/wallet-sdk-gumball-machine/src/index.ts),
    whose handlers build manifests through a builder object from the wallet SDK.

Each button handler is embedded as a pure function from its inputs (DOM field
values, the module-level session variables, the wallet result and the gateway
responses) to the trace of externally visible steps it performs and the new
session plus DOM state, with a thrown wallet error embedded as an Except error.
-/

/-- Result of the wallet sendTransaction call: either an error (surfaced by a
JS throw) or a value carrying the transaction intent hash. -/
inductive WalletResult where
  | err (error : String)
  | ok (transactionIntentHash : String)
deriving DecidableEq, Repr

/-- The transaction part of a committed-details gateway response; the handlers
read only its affected_global_entities list. -/
structure CommittedTransaction where
  affected_global_entities : List String
deriving DecidableEq, Repr

/-- A committed-details gateway response (getCommittedDetails). -/
structure CommittedDetails where
  transaction : CommittedTransaction
deriving DecidableEq, Repr

/-- The entity-state part of a getEntityDetailsVaultAggregated gateway
response; the handlers read details.state.fields and take the value of an
entry by position, so a field is embedded as its value string. -/
structure EntityState where
  fields : List String
deriving DecidableEq, Repr

/-- The gateway collaborator, embedded as response functions keyed by the
query argument. -/
structure GatewayEnv where
  transactionStatus : String → String
  committedDetails : String → CommittedDetails
  entityDetails : String → EntityState

/-- One externally visible step of a handler run, in program order. -/
inductive Step where
  | buildManifest (manifest : String)
  | sendTransaction (manifest : String)
  | getStatus (intentHash : String)
  | getCommittedDetails (intentHash : String)
  | getEntityDetails (address : String)
  | storeState (field value : String)
  | updateUI (element value : String)
  | throwError (error : String)
deriving DecidableEq, Repr

/-- The kind of a step, forgetting its payload. -/
inductive StepKind where
  | build
  | send
  | status
  | details
  | entity
  | store
  | ui
  | throw
deriving DecidableEq, Repr

/-- Kind of a step. -/
def Step.kind : Step → StepKind
  | .buildManifest _ => .build
  | .sendTransaction _ => .send
  | .getStatus _ => .status
  | .getCommittedDetails _ => .details
  | .getEntityDetails _ => .entity
  | .storeState _ _ => .store
  | .updateUI _ _ => .ui
  | .throwError _ => .throw

/-- True when a trace contains no session-state store and no DOM update. -/
def hasNoUpdates (trace : List Step) : Bool :=
  trace.all (fun step => step.kind != StepKind.store && step.kind != StepKind.ui)

/-- True when a trace contains a session-state store. -/
def hasStoreStep (trace : List Step) : Bool :=
  trace.any (fun step => step.kind == StepKind.store)

/-- Final session and DOM state of a handler run: a thrown error leaves the
module-level variables and the DOM exactly as they were. -/
def outcome {σ υ : Type} (s : σ) (ui : υ) (run : List Step × Except String (σ × υ)) :
    σ × υ :=
  match run.2 with
  | .error _ => (s, ui)
  | .ok p => p

/-- Whitespace tokens of a manifest string: maximal runs of characters other
than space and newline. Used to compare a manifest built by the code with the
instruction sequence the specification describes. -/
def manifestTokens (manifest : String) : List String :=
  ((manifest.toList.splitOnP (fun c => c == ' ' || c == '\n')).map
    (fun chars => String.mk chars)).filter (fun token => token != "")

/-- JS String.prototype.toString: rendering a value that is already a string
returns it unchanged, so re-rendering an already rendered manifest is the
identity. -/
def reRender (manifest : String) : String := manifest

/-- JSON.stringify of a committed-details response, as shown in the DOM. -/
def jsonStringifyDetails (receipt : CommittedDetails) : String :=
  "\x7b\"transaction\":\x7b\"affected_global_entities\":[" ++
    String.intercalate "," (receipt.transaction.affected_global_entities.map
      (fun entity => "\"" ++ entity ++ "\"")) ++ "]\x7d\x7d"

/-- JSON.stringify of a single extracted field value string. -/
def jsonStringifyValue (value : String) : String := "\"" ++ value ++ "\""

/-- Module-level session variables of the dapp-toolkit variant
(main.js lines 24 to 30). -/
structure SessionState where
  accountAddress : String
  componentAddress : String
  gum_resourceAddress : String
  xrdAddress : String
  admin_badge : String
  owner_badge : String
deriving DecidableEq, Repr

/-- DOM text elements written by the dapp-toolkit variant. -/
structure UIState where
  accountName : String
  accountAddress : String
  componentAddress : String
  admin_badge : String
  owner_badge : String
  gum_resourceAddress : String
  receipt : String
  price : String
  withdraw : String
  staffBadge : String
deriving DecidableEq, Repr

/-- One account entry of the wallet-data subscription payload. -/
structure WalletAccount where
  label : String
  address : String
deriving DecidableEq, Repr

/-- Payload of the wallet-data subscription. -/
structure WalletData where
  accounts : List WalletAccount
deriving DecidableEq, Repr

/-- The wallet-data subscription callback (main.js lines 15 to 20): stores the
first account address and shows its label and address in the DOM. -/
def walletDataSubscription (walletData : WalletData) (s : SessionState) (ui : UIState) :
    SessionState × UIState :=
  let first := walletData.accounts.getD 0 { label := "undefined", address := "undefined" }
  ({ s with accountAddress := first.address },
   { ui with accountName := first.label, accountAddress := first.address })

/-- The instantiate manifest template string (main.js lines 39 to 50),
interpolating the packageAddress and flavor input fields and the
accountAddress session variable. -/
def instantiateManifest (packageAddress flavor : String) (s : SessionState) : String :=
  "\n  CALL_FUNCTION\n    Address(\"" ++ packageAddress ++
    "\")\n    \"GumballMachine\"\n    \"instantiate_gumball_machine\"\n    Decimal(\"5\")\n    \"" ++
    flavor ++ "\";\n  CALL_METHOD\n    Address(\"" ++ s.accountAddress ++
    "\")\n    \"deposit_batch\"\n    Expression(\"ENTIRE_WORKTOP\");\n    "

/-- The buy-gumball manifest template string (main.js lines 92 to 109). -/
def buyGumballManifest (s : SessionState) : String :=
  "\n  CALL_METHOD\n    Address(\"" ++ s.accountAddress ++
    "\")\n    \"withdraw\"    \n    Address(\"" ++ s.xrdAddress ++
    "\")\n    Decimal(\"33\");\n  TAKE_ALL_FROM_WORKTOP\n    Address(\"" ++ s.xrdAddress ++
    "\")\n    Bucket(\"xrd\");\n  CALL_METHOD\n    Address(\"" ++ s.componentAddress ++
    "\")\n    \"buy_gumball\"\n    Bucket(\"xrd\");\n  CALL_METHOD\n    Address(\"" ++
    s.accountAddress ++ "\")\n    \"deposit_batch\"\n    Expression(\"ENTIRE_WORKTOP\");\n    "

/-- The set-price manifest template string (main.js lines 148 to 158),
interpolating the newPrice input field. -/
def setPriceManifest (newPrice : String) (s : SessionState) : String :=
  "\n  CALL_METHOD\n    Address(\"" ++ s.accountAddress ++
    "\")\n    \"create_proof_of_amount\"    \n    Address(\"" ++ s.admin_badge ++
    "\")\n    Decimal(\"1\");\nCALL_METHOD\n    Address(\"" ++ s.componentAddress ++
    "\")\n    \"set_price\"\n    Decimal(\"" ++ newPrice ++ "\");\n  "

/-- The withdraw-earnings manifest template string (main.js lines 184 to 197). -/
def withdrawEarningsManifest (s : SessionState) : String :=
  "\n  CALL_METHOD\n    Address(\"" ++ s.accountAddress ++
    "\")\n    \"create_proof_of_amount\"    \n    Address(\"" ++ s.owner_badge ++
    "\")\n    Decimal(\"1\");\n  CALL_METHOD\n    Address(\"" ++ s.componentAddress ++
    "\")\n    \"withdraw_earnings\";\n  CALL_METHOD\n    Address(\"" ++ s.accountAddress ++
    "\")\n    \"deposit_batch\"\n    Expression(\"ENTIRE_WORKTOP\");\n    "

/-- The mint-staff-badge manifest template string (main.js lines 223 to 237). -/
def mintStaffBadgeManifest (s : SessionState) : String :=
  "\n  CALL_METHOD\n    Address(\"" ++ s.accountAddress ++
    "\")\n    \"create_proof_of_amount\"    \n    Address(\"" ++ s.admin_badge ++
    "\")\n    Decimal(\"1\");\nCALL_METHOD\n    Address(\"" ++ s.componentAddress ++
    "\")\n    \"mint_staff_badge\"\n    \"Number2\";\nCALL_METHOD\n    Address(\"" ++
    s.accountAddress ++ "\")\n    \"deposit_batch\"\n    Expression(\"ENTIRE_WORKTOP\");\n    "

/-- The instantiateComponent click handler of the dapp-toolkit variant
(main.js lines 36 to 87): build the manifest, submit it, throw on a wallet
error, otherwise query status then committed details, then store and show
the entities at positions 2, 4, 3 and 6 of affected_global_entities as the
component, admin badge, owner badge and gumball resource addresses. -/
def instantiateOnClick (packageAddress flavor : String) (s : SessionState) (ui : UIState)
    (wallet : WalletResult) (gateway : GatewayEnv) :
    List Step × Except String (SessionState × UIState) :=
  let manifest := instantiateManifest packageAddress flavor s
  match wallet with
  | .err e => ([.buildManifest manifest, .sendTransaction manifest, .throwError e], .error e)
  | .ok intentHash =>
    let receipt := gateway.committedDetails intentHash
    let componentAddress := receipt.transaction.affected_global_entities.getD 2 "undefined"
    let admin_badge := receipt.transaction.affected_global_entities.getD 4 "undefined"
    let owner_badge := receipt.transaction.affected_global_entities.getD 3 "undefined"
    let gum_resourceAddress := receipt.transaction.affected_global_entities.getD 6 "undefined"
    ([.buildManifest manifest, .sendTransaction manifest, .getStatus intentHash,
      .getCommittedDetails intentHash,
      .storeState "componentAddress" componentAddress,
      .updateUI "componentAddress" componentAddress,
      .storeState "admin_badge" admin_badge,
      .updateUI "admin_badge" admin_badge,
      .storeState "owner_badge" owner_badge,
      .updateUI "owner_badge" owner_badge,
      .storeState "gum_resourceAddress" gum_resourceAddress,
      .updateUI "gum_resourceAddress" gum_resourceAddress],
     .ok ({ s with
            componentAddress := componentAddress,
            admin_badge := admin_badge,
            owner_badge := owner_badge,
            gum_resourceAddress := gum_resourceAddress },
          { ui with
            componentAddress := componentAddress,
            admin_badge := admin_badge,
            owner_badge := owner_badge,
            gum_resourceAddress := gum_resourceAddress }))

/-- The buyGumball click handler of the dapp-toolkit variant
(main.js lines 91 to 131). -/
def buyGumballOnClick (s : SessionState) (ui : UIState) (wallet : WalletResult)
    (gateway : GatewayEnv) : List Step × Except String (SessionState × UIState) :=
  let manifest := buyGumballManifest s
  match wallet with
  | .err e => ([.buildManifest manifest, .sendTransaction manifest, .throwError e], .error e)
  | .ok intentHash =>
    let receipt := gateway.committedDetails intentHash
    ([.buildManifest manifest, .sendTransaction manifest, .getStatus intentHash,
      .getCommittedDetails intentHash,
      .updateUI "receipt" (jsonStringifyDetails receipt)],
     .ok (s, { ui with receipt := jsonStringifyDetails receipt }))

/-- The setPrice click handler of the dapp-toolkit variant
(main.js lines 146 to 178): after the status query it performs an
entity-state query on the component, not a committed-details query, and
shows the extracted price field. -/
def setPriceOnClick (newPrice : String) (s : SessionState) (ui : UIState)
    (wallet : WalletResult) (gateway : GatewayEnv) :
    List Step × Except String (SessionState × UIState) :=
  let manifest := setPriceManifest newPrice s
  match wallet with
  | .err e => ([.buildManifest manifest, .sendTransaction manifest, .throwError e], .error e)
  | .ok intentHash =>
    let price := (gateway.entityDetails s.componentAddress).fields.getD 2 "undefined"
    ([.buildManifest manifest, .sendTransaction manifest, .getStatus intentHash,
      .getEntityDetails s.componentAddress,
      .updateUI "price" (jsonStringifyValue price)],
     .ok (s, { ui with price := jsonStringifyValue price }))

/-- The withdrawEarnings click handler of the dapp-toolkit variant
(main.js lines 182 to 219). -/
def withdrawEarningsOnClick (s : SessionState) (ui : UIState) (wallet : WalletResult)
    (gateway : GatewayEnv) : List Step × Except String (SessionState × UIState) :=
  let manifest := withdrawEarningsManifest s
  match wallet with
  | .err e => ([.buildManifest manifest, .sendTransaction manifest, .throwError e], .error e)
  | .ok intentHash =>
    let receipt := gateway.committedDetails intentHash
    ([.buildManifest manifest, .sendTransaction manifest, .getStatus intentHash,
      .getCommittedDetails intentHash,
      .updateUI "withdraw" (jsonStringifyDetails receipt)],
     .ok (s, { ui with withdraw := jsonStringifyDetails receipt }))

/-- The mintStaffBadge click handler of the dapp-toolkit variant
(main.js lines 221 to 260). -/
def mintStaffBadgeOnClick (s : SessionState) (ui : UIState) (wallet : WalletResult)
    (gateway : GatewayEnv) : List Step × Except String (SessionState × UIState) :=
  let manifest := mintStaffBadgeManifest s
  match wallet with
  | .err e => ([.buildManifest manifest, .sendTransaction manifest, .throwError e], .error e)
  | .ok intentHash =>
    let receipt := gateway.committedDetails intentHash
    ([.buildManifest manifest, .sendTransaction manifest, .getStatus intentHash,
      .getCommittedDetails intentHash,
      .updateUI "staffBadge" (jsonStringifyDetails receipt)],
     .ok (s, { ui with staffBadge := jsonStringifyDetails receipt }))

/-- One queued instruction of the wallet SDK manifest builder, as produced by
the builder calls the wallet-sdk variant makes (index.ts lines 51 to 54 and
88 to 94). -/
inductive BuilderOp where
  | callFunction (packageAddress blueprintName functionName : String) (args : List String)
  | withdrawFromAccountByAmount (accountAddress : String) (amount : Nat) (resource : String)
  | takeFromWorktopByAmount (amount : Nat) (resource bucket : String)
  | callMethod (address methodName : String) (args : List String)
deriving DecidableEq, Repr

/-- The wallet SDK manifest builder: an ordered queue of instructions. -/
structure ManifestBuilder where
  ops : List BuilderOp
deriving DecidableEq, Repr

/-- A fresh builder, as produced by new ManifestBuilder(). -/
def ManifestBuilder.empty : ManifestBuilder := ⟨[]⟩

/-- Queue a CALL_FUNCTION instruction. -/
def ManifestBuilder.callFunction (b : ManifestBuilder)
    (packageAddress blueprintName functionName : String) (args : List String) :
    ManifestBuilder :=
  ⟨b.ops ++ [.callFunction packageAddress blueprintName functionName args]⟩

/-- Queue a withdraw-by-amount instruction. -/
def ManifestBuilder.withdrawFromAccountByAmount (b : ManifestBuilder)
    (accountAddress : String) (amount : Nat) (resource : String) : ManifestBuilder :=
  ⟨b.ops ++ [.withdrawFromAccountByAmount accountAddress amount resource]⟩

/-- Queue a take-from-worktop-by-amount instruction. -/
def ManifestBuilder.takeFromWorktopByAmount (b : ManifestBuilder)
    (amount : Nat) (resource bucket : String) : ManifestBuilder :=
  ⟨b.ops ++ [.takeFromWorktopByAmount amount resource bucket]⟩

/-- Queue a CALL_METHOD instruction. -/
def ManifestBuilder.callMethod (b : ManifestBuilder) (address methodName : String)
    (args : List String) : ManifestBuilder :=
  ⟨b.ops ++ [.callMethod address methodName args]⟩

/-- Finalize the builder; the queued instructions are the manifest. -/
def ManifestBuilder.build (b : ManifestBuilder) : ManifestBuilder := b

/-- Modelled from the spec: the wallet SDK Decimal helper renders a decimal
literal manifest argument; its source is in the external SDK, the repository
only imports it. -/
def Decimal (amount : String) : String := "Decimal(\"" ++ amount ++ "\")"

/-- Modelled from the spec: the external wallet SDK renders each queued
instruction to one line of the transaction manifest language; the repository
calls toString on the built manifest, the rendering itself lives in the SDK. -/
def renderOp : BuilderOp → String
  | .callFunction p bp fn args =>
    "CALL_FUNCTION PackageAddress(\"" ++ p ++ "\") \"" ++ bp ++ "\" \"" ++ fn ++ "\" " ++
      String.intercalate " " args ++ ";"
  | .withdrawFromAccountByAmount a amount r =>
    "CALL_METHOD ComponentAddress(\"" ++ a ++ "\") \"withdraw_by_amount\" Decimal(\"" ++
      toString amount ++ "\") ResourceAddress(\"" ++ r ++ "\");"
  | .takeFromWorktopByAmount amount r bucket =>
    "TAKE_FROM_WORKTOP_BY_AMOUNT Decimal(\"" ++ toString amount ++
      "\") ResourceAddress(\"" ++ r ++ "\") Bucket(\"" ++ bucket ++ "\");"
  | .callMethod a m args =>
    "CALL_METHOD ComponentAddress(\"" ++ a ++ "\") \"" ++ m ++ "\" " ++
      String.intercalate " " args ++ ";"

/-- Modelled from the spec: toString of a built manifest joins the rendered
instructions. -/
def ManifestBuilder.toText (b : ManifestBuilder) : String :=
  String.intercalate "\n" (b.ops.map renderOp)

/-- Module-level session variables of the wallet-sdk variant
(index.ts lines 21 to 23). -/
structure SdkSessionState where
  accountAddress : String
  componentAddress : String
  resourceAddress : String
deriving DecidableEq, Repr

/-- DOM text elements written by the wallet-sdk variant. -/
structure SdkUI where
  accountAddress : String
deriving DecidableEq, Repr

/-- One account entry of a oneTimeAccounts wallet response. -/
structure OneTimeAccount where
  address : String
  label : String
deriving DecidableEq, Repr

/-- Value of a successful wallet account request; the oneTimeAccounts member
may be absent. -/
structure AccountsValue where
  oneTimeAccounts : Option (List OneTimeAccount)
deriving DecidableEq, Repr

/-- Result of the wallet account request. -/
inductive AccountsResult where
  | err (error : String)
  | ok (value : AccountsValue)
deriving DecidableEq, Repr

/-- The fetchAccountAddress click handler of the wallet-sdk variant
(index.ts lines 27 to 45): throw on an error result; return early when the
successful result carries no oneTimeAccounts value; otherwise show and store
the first account address. -/
def fetchAccountAddressOnClick (s : SdkSessionState) (ui : SdkUI)
    (result : AccountsResult) : List Step × Except String (SdkSessionState × SdkUI) :=
  match result with
  | .err e => ([.throwError e], .error e)
  | .ok value =>
    match value.oneTimeAccounts with
    | none => ([], .ok (s, ui))
    | some oneTimeAccounts =>
      let address := (oneTimeAccounts.getD 0 { address := "undefined", label := "undefined" }).address
      ([.updateUI "accountAddress" address, .storeState "accountAddress" address],
       .ok ({ s with accountAddress := address }, { ui with accountAddress := address }))

/-- The manifest builder calls of the wallet-sdk instantiateComponent handler
(index.ts lines 51 to 54): a single CALL_FUNCTION with the one argument
Decimal ten, no flavor argument and no deposit instruction. -/
def sdkInstantiateBuilder (packageAddress : String) : ManifestBuilder :=
  (ManifestBuilder.empty.callFunction packageAddress "GumballMachine"
    "instantiate_gumball_machine" [Decimal "10"]).build

/-- The instantiateComponent click handler of the wallet-sdk variant
(index.ts lines 48 to 84): build and submit the manifest, throw on a wallet
error, query the transaction status; the committed-details lookup and the
address extraction are commented out, so nothing is stored or shown. -/
def sdkInstantiateOnClick (packageAddress : String) (s : SdkSessionState) (ui : SdkUI)
    (wallet : WalletResult) (gateway : GatewayEnv) :
    List Step × Except String (SdkSessionState × SdkUI) :=
  let manifest := (sdkInstantiateBuilder packageAddress).toText
  match wallet with
  | .err e => ([.buildManifest manifest, .sendTransaction manifest, .throwError e], .error e)
  | .ok intentHash =>
    let _response := gateway.transactionStatus intentHash
    ([.buildManifest manifest, .sendTransaction manifest, .getStatus intentHash],
     .ok (s, ui))

/-- The manifest builder calls of the wallet-sdk buyGumball handler
(index.ts lines 88 to 94): withdraw ten of a hard-coded resource, take ten
from the worktop into bucket1, call buy_gumball, deposit the worktop. -/
def sdkBuyGumballBuilder (s : SdkSessionState) : ManifestBuilder :=
  ((((ManifestBuilder.empty.withdrawFromAccountByAmount s.accountAddress 10
      "resource_tdx_b_1qzkcyv5dwq3r6kawy6pxpvcythx8rh8ntum6ws62p95s9hhz9x").takeFromWorktopByAmount
      10 "resource_tdx_b_1qzkcyv5dwq3r6kawy6pxpvcythx8rh8ntum6ws62p95s9hhz9x"
      "bucket1").callMethod s.componentAddress "buy_gumball"
      ["Bucket(\"bucket1\")"]).callMethod s.accountAddress "deposit_batch"
      ["Expression(\"ENTIRE_WORKTOP\")"]).build

/-- The buyGumball click handler of the wallet-sdk variant
(index.ts lines 86 to 114): build and submit the manifest, throw on a wallet
error; every later gateway and DOM step is commented out. -/
def sdkBuyGumballOnClick (s : SdkSessionState) (ui : SdkUI) (wallet : WalletResult) :
    List Step × Except String (SdkSessionState × SdkUI) :=
  let manifest := (sdkBuyGumballBuilder s).toText
  match wallet with
  | .err e => ([.buildManifest manifest, .sendTransaction manifest, .throwError e], .error e)
  | .ok _ =>
    ([.buildManifest manifest, .sendTransaction manifest], .ok (s, ui))

/-- Concrete session values for the specification scenarios: account addr1,
component comp1, gumball resource gum1, XRD resource xrd1, admin badge
admin1, owner badge owner1. -/
def scenarioState : SessionState where
  accountAddress := "addr1"
  componentAddress := "comp1"
  gum_resourceAddress := "gum1"
  xrdAddress := "xrd1"
  admin_badge := "admin1"
  owner_badge := "owner1"

/-- Concrete DOM state for the scenarios. -/
def scenarioUI : UIState where
  accountName := "Main"
  accountAddress := "addr1"
  componentAddress := "comp1"
  admin_badge := "admin1"
  owner_badge := "owner1"
  gum_resourceAddress := "gum1"
  receipt := ""
  price := ""
  withdraw := ""
  staffBadge := ""

/-- Concrete wallet-sdk session values for the scenarios. -/
def sdkScenarioState : SdkSessionState where
  accountAddress := "addr1"
  componentAddress := "comp1"
  resourceAddress := "xrd1"

/-- Concrete wallet-sdk DOM state for the scenarios. -/
def sdkScenarioUI : SdkUI where
  accountAddress := "addr1"

/-- A concrete gateway whose committed-details response lists seven affected
global entities e0 to e6. -/
def scenarioGateway : GatewayEnv where
  transactionStatus := fun _ => "CommittedSuccess"
  committedDetails := fun _ => ⟨⟨["e0", "e1", "e2", "e3", "e4", "e5", "e6"]⟩⟩
  entityDetails := fun _ => ⟨["f0", "f1", "f2"]⟩

/-- Instruction tokens the specification describes for the Instantiate
manifest: call the instantiation function of the package with Decimal five
and the flavor string, then deposit the entire worktop to the account. This
definition follows the words of the specification, to be compared with the
manifest the code builds. -/
def claimInstantiateTokens (accountAddress packageAddress flavor : String) : List String :=
  ["CALL_FUNCTION", "Address(\"" ++ packageAddress ++ "\")", "\"GumballMachine\"",
   "\"instantiate_gumball_machine\"", "Decimal(\"5\")", "\"" ++ flavor ++ "\";",
   "CALL_METHOD", "Address(\"" ++ accountAddress ++ "\")", "\"deposit_batch\"",
   "Expression(\"ENTIRE_WORKTOP\");"]

/-- Instruction tokens for a deposit of the entire worktop to the account,
as the specification describes the closing instruction of a manifest. -/
def claimDepositTokens (accountAddress : String) : List String :=
  ["CALL_METHOD", "Address(\"" ++ accountAddress ++ "\")", "\"deposit_batch\"",
   "Expression(\"ENTIRE_WORKTOP\");"]

/-- Instruction tokens the specification describes for the Buy manifest:
withdraw Decimal thirty-three of the XRD resource from the account, take the
withdrawn XRD from the worktop into a named bucket, call buy_gumball with
the bucket, deposit the entire worktop back. Follows the words of the
specification. -/
def claimBuyTokens (accountAddress xrdAddress componentAddress : String) : List String :=
  ["CALL_METHOD", "Address(\"" ++ accountAddress ++ "\")", "\"withdraw\"",
   "Address(\"" ++ xrdAddress ++ "\")", "Decimal(\"33\");",
   "TAKE_ALL_FROM_WORKTOP", "Address(\"" ++ xrdAddress ++ "\")", "Bucket(\"xrd\");",
   "CALL_METHOD", "Address(\"" ++ componentAddress ++ "\")", "\"buy_gumball\"",
   "Bucket(\"xrd\");"] ++ claimDepositTokens accountAddress

/-- Instruction tokens for the authorization proof the specification
describes at the start of every admin manifest: create_proof_of_amount of
one of the badge from the account. -/
def claimAdminProofTokens (accountAddress badge : String) : List String :=
  ["CALL_METHOD", "Address(\"" ++ accountAddress ++ "\")", "\"create_proof_of_amount\"",
   "Address(\"" ++ badge ++ "\")", "Decimal(\"1\");"]

/-- Builder instruction sequence the claim describes for the Instantiate
manifest, stated on the wallet-sdk builder embedding. Follows the words of
the specification. -/
def claimInstantiateOps (accountAddress packageAddress flavor : String) : List BuilderOp :=
  [.callFunction packageAddress "GumballMachine" "instantiate_gumball_machine"
     [Decimal "5", "\"" ++ flavor ++ "\""],
   .callMethod accountAddress "deposit_batch" ["Expression(\"ENTIRE_WORKTOP\")"]]

/-- Builder instruction sequence the claim describes for the Buy manifest,
stated on the wallet-sdk builder embedding. Follows the words of the
specification. -/
def claimBuyOps (accountAddress xrdAddress componentAddress : String) : List BuilderOp :=
  [.withdrawFromAccountByAmount accountAddress 33 xrdAddress,
   .takeFromWorktopByAmount 33 xrdAddress "bucket1",
   .callMethod componentAddress "buy_gumball" ["Bucket(\"bucket1\")"],
   .callMethod accountAddress "deposit_batch" ["Expression(\"ENTIRE_WORKTOP\")"]]

/-- The completeness part of the pipeline contract the specification states
for every mutating operation: the run contains a manifest build, a wallet
submission, a status query, a committed-details query and a UI update.
Follows the words of the specification. -/
def pipelineComplete (kinds : List StepKind) : Prop :=
  StepKind.build ∈ kinds ∧ StepKind.send ∈ kinds ∧ StepKind.status ∈ kinds ∧
    StepKind.details ∈ kinds ∧ StepKind.ui ∈ kinds

/-- Claim C1: for every Instantiate action whose wallet submission succeeds,
the component, owner-badge, admin-badge and gumball-resource addresses stored
into the session state (and shown in the UI) equal the entries at positions
2, 3, 4 and 6 respectively of the affected_global_entities list of the
committed-details response; the other session fields are untouched. -/
theorem instantiate_stores_positional_entries
    (packageAddress flavor intentHash : String) (s : SessionState) (ui : UIState)
    (gateway : GatewayEnv)
    (hlen : 6 <
      ((gateway.committedDetails intentHash).transaction.affected_global_entities).length) :
    ∃ s2 ui2,
      (instantiateOnClick packageAddress flavor s ui (.ok intentHash) gateway).2 =
        .ok (s2, ui2) ∧
      s2.componentAddress =
        ((gateway.committedDetails intentHash).transaction.affected_global_entities)[2] ∧
      s2.owner_badge =
        ((gateway.committedDetails intentHash).transaction.affected_global_entities)[3] ∧
      s2.admin_badge =
        ((gateway.committedDetails intentHash).transaction.affected_global_entities)[4] ∧
      s2.gum_resourceAddress =
        ((gateway.committedDetails intentHash).transaction.affected_global_entities)[6] ∧
      ui2.componentAddress =
        ((gateway.committedDetails intentHash).transaction.affected_global_entities)[2] ∧
      ui2.owner_badge =
        ((gateway.committedDetails intentHash).transaction.affected_global_entities)[3] ∧
      ui2.admin_badge =
        ((gateway.committedDetails intentHash).transaction.affected_global_entities)[4] ∧
      ui2.gum_resourceAddress =
        ((gateway.committedDetails intentHash).transaction.affected_global_entities)[6] ∧
      s2.accountAddress = s.accountAddress ∧ s2.xrdAddress = s.xrdAddress := by
  refine ⟨_, _, rfl, ?_, ?_, ?_, ?_, ?_, ?_, ?_, ?_, rfl, rfl⟩ <;>
    exact List.getD_eq_getElem _ _ (by omega)

/-- Witness for claim C1 at a concrete scenario: the gateway lists entities
e0 to e6 and the handler stores e2, e3, e4 and e6. -/
theorem instantiate_stores_positional_entries_witness :
    6 < ((scenarioGateway.committedDetails "txid").transaction.affected_global_entities).length ∧
    ∃ s2 ui2,
      (instantiateOnClick "pkg1" "BANANA" scenarioState scenarioUI (.ok "txid")
          scenarioGateway).2 = .ok (s2, ui2) ∧
      s2.componentAddress = "e2" ∧ s2.owner_badge = "e3" ∧ s2.admin_badge = "e4" ∧
      s2.gum_resourceAddress = "e6" := by
  refine ⟨by decide, ?_⟩
  obtain ⟨s2, ui2, hok, hcomp, howner, hadmin, hgum, -, -, -, -, -, -⟩ :=
    instantiate_stores_positional_entries "pkg1" "BANANA" "txid" scenarioState scenarioUI
      scenarioGateway (by decide)
  exact ⟨s2, ui2, hok, by simpa using hcomp, by simpa using howner, by simpa using hadmin,
    by simpa using hgum⟩

/-- Claim C2: for every mutating operation of either variant, an error wallet
result makes the handler surface exactly that error, leaves the session state
and the DOM unchanged, and produces a run with no session store and no UI
update. -/
theorem wallet_error_aborts_unchanged
    (packageAddress flavor newPrice e : String) (s : SessionState) (ui : UIState)
    (ss : SdkSessionState) (sui : SdkUI) (gateway : GatewayEnv) :
    ((instantiateOnClick packageAddress flavor s ui (.err e) gateway).2 = .error e ∧
      outcome s ui (instantiateOnClick packageAddress flavor s ui (.err e) gateway) = (s, ui) ∧
      hasNoUpdates (instantiateOnClick packageAddress flavor s ui (.err e) gateway).1 = true) ∧
    ((buyGumballOnClick s ui (.err e) gateway).2 = .error e ∧
      outcome s ui (buyGumballOnClick s ui (.err e) gateway) = (s, ui) ∧
      hasNoUpdates (buyGumballOnClick s ui (.err e) gateway).1 = true) ∧
    ((setPriceOnClick newPrice s ui (.err e) gateway).2 = .error e ∧
      outcome s ui (setPriceOnClick newPrice s ui (.err e) gateway) = (s, ui) ∧
      hasNoUpdates (setPriceOnClick newPrice s ui (.err e) gateway).1 = true) ∧
    ((withdrawEarningsOnClick s ui (.err e) gateway).2 = .error e ∧
      outcome s ui (withdrawEarningsOnClick s ui (.err e) gateway) = (s, ui) ∧
      hasNoUpdates (withdrawEarningsOnClick s ui (.err e) gateway).1 = true) ∧
    ((mintStaffBadgeOnClick s ui (.err e) gateway).2 = .error e ∧
      outcome s ui (mintStaffBadgeOnClick s ui (.err e) gateway) = (s, ui) ∧
      hasNoUpdates (mintStaffBadgeOnClick s ui (.err e) gateway).1 = true) ∧
    ((sdkInstantiateOnClick packageAddress ss sui (.err e) gateway).2 = .error e ∧
      outcome ss sui (sdkInstantiateOnClick packageAddress ss sui (.err e) gateway) = (ss, sui) ∧
      hasNoUpdates (sdkInstantiateOnClick packageAddress ss sui (.err e) gateway).1 = true) ∧
    ((sdkBuyGumballOnClick ss sui (.err e)).2 = .error e ∧
      outcome ss sui (sdkBuyGumballOnClick ss sui (.err e)) = (ss, sui) ∧
      hasNoUpdates (sdkBuyGumballOnClick ss sui (.err e)).1 = true) :=
  ⟨⟨rfl, rfl, rfl⟩, ⟨rfl, rfl, rfl⟩, ⟨rfl, rfl, rfl⟩, ⟨rfl, rfl, rfl⟩, ⟨rfl, rfl, rfl⟩,
    ⟨rfl, rfl, rfl⟩, ⟨rfl, rfl, rfl⟩⟩

/-- Claim C3: manifest construction is pure and deterministic — each manifest
depends only on the session fields and input values it interpolates, so two
constructions from session states agreeing on those values (the gumball
resource address, in particular, is never read) yield identical manifests,
textually for the template strings and structurally for the builder. -/
theorem manifest_construction_deterministic
    (packageAddress flavor newPrice : String) (s1 s2 : SessionState)
    (ss1 ss2 : SdkSessionState)
    (hacc : s1.accountAddress = s2.accountAddress)
    (hxrd : s1.xrdAddress = s2.xrdAddress)
    (hcomp : s1.componentAddress = s2.componentAddress)
    (hadmin : s1.admin_badge = s2.admin_badge)
    (howner : s1.owner_badge = s2.owner_badge)
    (hsacc : ss1.accountAddress = ss2.accountAddress)
    (hscomp : ss1.componentAddress = ss2.componentAddress) :
    instantiateManifest packageAddress flavor s1 = instantiateManifest packageAddress flavor s2 ∧
    buyGumballManifest s1 = buyGumballManifest s2 ∧
    setPriceManifest newPrice s1 = setPriceManifest newPrice s2 ∧
    withdrawEarningsManifest s1 = withdrawEarningsManifest s2 ∧
    mintStaffBadgeManifest s1 = mintStaffBadgeManifest s2 ∧
    sdkBuyGumballBuilder ss1 = sdkBuyGumballBuilder ss2 := by
  simp [instantiateManifest, buyGumballManifest, setPriceManifest, withdrawEarningsManifest,
    mintStaffBadgeManifest, sdkBuyGumballBuilder, ManifestBuilder.empty,
    ManifestBuilder.withdrawFromAccountByAmount, ManifestBuilder.takeFromWorktopByAmount,
    ManifestBuilder.callMethod, ManifestBuilder.build,
    hacc, hxrd, hcomp, hadmin, howner, hsacc, hscomp]

/-- Witness for claim C3 at concrete states that differ only in the gumball
resource address, which no manifest reads. -/
theorem manifest_construction_deterministic_witness :
    buyGumballManifest scenarioState =
      buyGumballManifest { scenarioState with gum_resourceAddress := "gum2" } :=
  (manifest_construction_deterministic "pkg1" "BANANA" "42" scenarioState
    { scenarioState with gum_resourceAddress := "gum2" } sdkScenarioState sdkScenarioState
    rfl rfl rfl rfl rfl rfl rfl).2.1

/-- Counterexample to claim C4: in the wallet-sdk variant the Instantiate
manifest built for package pkg1 (with account addr1 and flavor BANANA) is a
single call whose lone argument is Decimal ten — it carries neither
Decimal five nor the flavor string, and no deposit instruction follows — so
the claimed manifest shape fails for that variant. -/
theorem sdk_instantiate_manifest_refutes_claim :
    (sdkInstantiateBuilder "pkg1").ops ≠ claimInstantiateOps "addr1" "pkg1" "BANANA" ∧
    (sdkInstantiateBuilder "pkg1").ops =
      [.callFunction "pkg1" "GumballMachine" "instantiate_gumball_machine" [Decimal "10"]] := by
  decide

/-- Claim C4 (amended): in the dapp-toolkit variant, for account addr1,
package pkg1 and flavor BANANA, the Instantiate manifest consists of a call
of the instantiate_gumball_machine function of the GumballMachine blueprint
of pkg1 with arguments Decimal five and the string BANANA, followed by a
deposit_batch of the entire worktop to addr1. The wallet-sdk variant instead
builds a single call with Decimal ten and no deposit. -/
theorem dapp_instantiate_manifest_matches_claim :
    manifestTokens (instantiateManifest "pkg1" "BANANA" scenarioState) =
      claimInstantiateTokens "addr1" "pkg1" "BANANA" := by
  decide

/-- Counterexample to claim C5: in the wallet-sdk variant the Buy manifest
for account addr1, XRD resource xrd1 and component comp1 withdraws ten of a
hard-coded resource address rather than Decimal thirty-three of xrd1, so the
claimed manifest shape fails for that variant. -/
theorem sdk_buy_manifest_refutes_claim :
    (sdkBuyGumballBuilder sdkScenarioState).ops ≠ claimBuyOps "addr1" "xrd1" "comp1" ∧
    (sdkBuyGumballBuilder sdkScenarioState).ops =
      [.withdrawFromAccountByAmount "addr1" 10
         "resource_tdx_b_1qzkcyv5dwq3r6kawy6pxpvcythx8rh8ntum6ws62p95s9hhz9x",
       .takeFromWorktopByAmount 10
         "resource_tdx_b_1qzkcyv5dwq3r6kawy6pxpvcythx8rh8ntum6ws62p95s9hhz9x" "bucket1",
       .callMethod "comp1" "buy_gumball" ["Bucket(\"bucket1\")"],
       .callMethod "addr1" "deposit_batch" ["Expression(\"ENTIRE_WORKTOP\")"]] := by
  decide

/-- Claim C5 (amended): in the dapp-toolkit variant, for account addr1, XRD
resource xrd1 and component comp1, the Buy manifest in order withdraws
Decimal thirty-three of xrd1 from addr1, takes the withdrawn XRD from the
worktop into the named bucket xrd, calls buy_gumball of comp1 with that
bucket, and deposits the entire worktop back to addr1. The wallet-sdk
variant instead withdraws ten of a hard-coded resource. -/
theorem dapp_buy_manifest_matches_claim :
    manifestTokens (buyGumballManifest scenarioState) =
      claimBuyTokens "addr1" "xrd1" "comp1" := by
  decide

/-- Counterexample to claim C6: the Set Price manifest consists of the badge
proof followed by the set_price call only — no deposit_batch token occurs in
it — so the claim that every admin manifest then deposits resulting
resources to the account is false for Set Price. -/
theorem set_price_manifest_lacks_deposit :
    manifestTokens (setPriceManifest "42" scenarioState) =
      claimAdminProofTokens "addr1" "admin1" ++
        ["CALL_METHOD", "Address(\"comp1\")", "\"set_price\"", "Decimal(\"42\");"] ∧
    "\"deposit_batch\"" ∉ manifestTokens (setPriceManifest "42" scenarioState) := by
  decide

/-- Claim C6 (amended): each admin manifest first creates a proof of one of
the authorization badge from the account (the admin badge for Set Price and
Mint Badge, the owner badge for Withdraw Earnings), then invokes the
privileged component method; Withdraw Earnings and Mint Badge then deposit
the entire worktop to the account, while Set Price ends after set_price with
no deposit instruction. -/
theorem admin_manifests_proof_then_method :
    manifestTokens (withdrawEarningsManifest scenarioState) =
      claimAdminProofTokens "addr1" "owner1" ++
        ["CALL_METHOD", "Address(\"comp1\")", "\"withdraw_earnings\";"] ++
        claimDepositTokens "addr1" ∧
    manifestTokens (mintStaffBadgeManifest scenarioState) =
      claimAdminProofTokens "addr1" "admin1" ++
        ["CALL_METHOD", "Address(\"comp1\")", "\"mint_staff_badge\"", "\"Number2\";"] ++
        claimDepositTokens "addr1" ∧
    manifestTokens (setPriceManifest "42" scenarioState) =
      claimAdminProofTokens "addr1" "admin1" ++
        ["CALL_METHOD", "Address(\"comp1\")", "\"set_price\"", "Decimal(\"42\");"] := by
  decide

/-- Counterexample to claim C7: the successful Set Price run contains no
committed-details query (an entity-state query stands in its place), so the
claim that no pipeline step is skipped for a successful mutating operation
is false. -/
theorem set_price_skips_committed_details :
    ¬ pipelineComplete
      ((setPriceOnClick "42" scenarioState scenarioUI (.ok "txid") scenarioGateway).1.map
        Step.kind) := by
  simp only [pipelineComplete]
  decide

/-- Claim C7 (amended): every mutating handler builds its manifest before the
wallet submission and, on a non-error wallet result, performs its remaining
steps in pipeline order — the status query, then the committed-details query
where one is made, then each stored field immediately followed by its UI
update. Set Price substitutes an entity-state query for the committed-details
query, and the wallet-sdk handlers stop after the submission or the status
query, so not every operation executes the whole pipeline. -/
theorem handlers_follow_step_order
    (packageAddress flavor newPrice intentHash : String) (s : SessionState) (ui : UIState)
    (ss : SdkSessionState) (sui : SdkUI) (gateway : GatewayEnv) :
    (instantiateOnClick packageAddress flavor s ui (.ok intentHash) gateway).1.map Step.kind =
      [.build, .send, .status, .details, .store, .ui, .store, .ui, .store, .ui, .store, .ui] ∧
    (buyGumballOnClick s ui (.ok intentHash) gateway).1.map Step.kind =
      [.build, .send, .status, .details, .ui] ∧
    (setPriceOnClick newPrice s ui (.ok intentHash) gateway).1.map Step.kind =
      [.build, .send, .status, .entity, .ui] ∧
    (withdrawEarningsOnClick s ui (.ok intentHash) gateway).1.map Step.kind =
      [.build, .send, .status, .details, .ui] ∧
    (mintStaffBadgeOnClick s ui (.ok intentHash) gateway).1.map Step.kind =
      [.build, .send, .status, .details, .ui] ∧
    (sdkInstantiateOnClick packageAddress ss sui (.ok intentHash) gateway).1.map Step.kind =
      [.build, .send, .status] ∧
    (sdkBuyGumballOnClick ss sui (.ok intentHash)).1.map Step.kind = [.build, .send] :=
  ⟨rfl, rfl, rfl, rfl, rfl, rfl, rfl⟩

/-- Claim C8: rendering a built manifest to its final string form is
idempotent — re-rendering the already rendered string of any manifest an
operation builds yields the same string — and a built manifest is immutable:
queueing a further instruction returns a new builder extending the old
instruction list while the instructions already queued stay unchanged. -/
theorem manifest_rendering_idempotent
    (packageAddress flavor newPrice : String) (s : SessionState) (ss : SdkSessionState)
    (b : ManifestBuilder) (address methodName : String) (args : List String) :
    reRender (instantiateManifest packageAddress flavor s) =
      instantiateManifest packageAddress flavor s ∧
    reRender (buyGumballManifest s) = buyGumballManifest s ∧
    reRender (setPriceManifest newPrice s) = setPriceManifest newPrice s ∧
    reRender (withdrawEarningsManifest s) = withdrawEarningsManifest s ∧
    reRender (mintStaffBadgeManifest s) = mintStaffBadgeManifest s ∧
    reRender ((sdkInstantiateBuilder packageAddress).build.toText) =
      (sdkInstantiateBuilder packageAddress).build.toText ∧
    reRender ((sdkBuyGumballBuilder ss).build.toText) =
      (sdkBuyGumballBuilder ss).build.toText ∧
    (b.callMethod address methodName args).ops =
      b.ops ++ [.callMethod address methodName args] :=
  ⟨rfl, rfl, rfl, rfl, rfl, rfl, rfl, rfl⟩

/-- Claim C9: in the wallet-sdk variant, a successful account request whose
value carries no oneTimeAccounts member makes the handler return early — no
step is performed and the session state and the DOM are returned unchanged. -/
theorem fetch_account_empty_result_unchanged (s : SdkSessionState) (ui : SdkUI) :
    fetchAccountAddressOnClick s ui (.ok { oneTimeAccounts := none }) = ([], .ok (s, ui)) :=
  rfl

/-- Claim C10: in the dapp-toolkit variant the Buy, Set Price, Withdraw
Earnings and Mint Badge handlers never write any session address variable:
whatever the wallet result, the session state after the run equals the
session state before, and no run of these handlers contains a session store
step. -/
theorem non_instantiate_handlers_preserve_session
    (newPrice : String) (s : SessionState) (ui : UIState) (wallet : WalletResult)
    (gateway : GatewayEnv) :
    ((outcome s ui (buyGumballOnClick s ui wallet gateway)).1 = s ∧
      hasStoreStep (buyGumballOnClick s ui wallet gateway).1 = false) ∧
    ((outcome s ui (setPriceOnClick newPrice s ui wallet gateway)).1 = s ∧
      hasStoreStep (setPriceOnClick newPrice s ui wallet gateway).1 = false) ∧
    ((outcome s ui (withdrawEarningsOnClick s ui wallet gateway)).1 = s ∧
      hasStoreStep (withdrawEarningsOnClick s ui wallet gateway).1 = false) ∧
    ((outcome s ui (mintStaffBadgeOnClick s ui wallet gateway)).1 = s ∧
      hasStoreStep (mintStaffBadgeOnClick s ui wallet gateway).1 = false) := by
  cases wallet <;> exact ⟨⟨rfl, rfl⟩, ⟨rfl, rfl⟩, ⟨rfl, rfl⟩, ⟨rfl, rfl⟩⟩
